import Mathlib

/-
Verification of the darwin JSON exporter (src/darwin/exporter/formats/darwin.py).

The Python module is embedded shallowly:
- Python dicts become association lists `Dict = List (String × JValue)` whose
  operations mirror CPython semantics on unique-key dicts: item assignment
  replaces the value at an existing key in place (keeping its position) or
  appends a fresh entry; `del` removes the key; `{**a, **b}` merges with the
  right operand overwriting.
- JSON-able Python values become the inductive `JValue`.
- Code that can raise returns `Except PyErr _`; `PyErr` distinguishes the
  exception classes the exporter can produce (KeyError from a missing dict
  key, IndexError from `[0]` on an empty list, TypeError from subscripting a
  non-sequence or from `dict.update(None)`).
- `_build_legacy_annotation_data` mutates its caller's `data` dict in place;
  the embedding makes the mutation explicit by returning, next to the payload,
  the final contents of that dict (state passing).
-/

set_option autoImplicit false

/-- PyErr enumerates the Python exception classes the exporter can raise. -/
inductive PyErr where
  | keyError : PyErr
  | indexError : PyErr
  | typeError : PyErr
  | attributeError : PyErr
deriving DecidableEq

/-- JValue is a JSON-like Python value: strings, numbers, booleans, None,
lists and dicts. -/
inductive JValue where
  | str : String → JValue
  | num : Int → JValue
  | bool : Bool → JValue
  | null : JValue
  | arr : List JValue → JValue
  | obj : List (String × JValue) → JValue

/-- Dict models a Python dict as an insertion-ordered association list. -/
abbrev Dict := List (String × JValue)

/-- assocLookup models Python dict item access: the value at the first
occurrence of the key, if any. -/
def assocLookup : Dict → String → Option JValue
  | [], _ => none
  | (k₁, v₁) :: rest, k => if k₁ = k then some v₁ else assocLookup rest k

/-- dictSet models Python item assignment `d[k] = v`: replace the value at the
first occurrence of `k` keeping its position, else append a new entry. -/
def dictSet : Dict → String → JValue → Dict
  | [], k, v => [(k, v)]
  | (k₁, v₁) :: rest, k, v =>
      if k₁ = k then (k₁, v) :: rest else (k₁, v₁) :: dictSet rest k v

/-- dictDel models Python `del d[k]` on a dict that holds the key: every entry
for `k` is removed (a real Python dict holds it at most once). -/
def dictDel : Dict → String → Dict
  | [], _ => []
  | (k₁, v₁) :: rest, k =>
      if k₁ = k then dictDel rest k else (k₁, v₁) :: dictDel rest k

/-- dictMerge models `{**d₁, **d₂}` and `d₁.update(d₂)`: insert the entries of
`d₂` into `d₁` left to right, the right operand overwriting on collisions. -/
def dictMerge (d₁ d₂ : Dict) : Dict :=
  d₂.foldl (fun acc kv => dictSet acc kv.1 kv.2) d₁

/-- orElseStr models Python `x or default` on an optional string: `None` and
the empty string are falsy and yield the default. -/
def orElseStr (o : Option String) (default : String) : String :=
  match o with
  | none => default
  | some s => if s = "" then default else s

/-- mapMExcept models Python `list(map(f, xs))` over a fallible `f`: elements
are processed left to right and the first raised error propagates. -/
def mapMExcept {α β : Type} (f : α → Except PyErr β) : List α → Except PyErr (List β)
  | [] => Except.ok []
  | x :: xs => do
      let y ← f x
      let ys ← mapMExcept f xs
      Except.ok (y :: ys)

/-- AnnotationClass embeds dt.AnnotationClass: display name, annotation type,
and the optional internal-type override (used for complex polygons). -/
structure AnnotationClass where
  name : String
  annotation_type : String
  annotation_internal_type : Option String

/-- AnnotationAuthor embeds dt.AnnotationAuthor: a name and an email. -/
structure AnnotationAuthor where
  name : String
  email : String
deriving DecidableEq

/-- SubAnnot embeds dt.SubAnnotation: a kind tag and a data value. -/
structure SubAnnot where
  annotation_type : String
  data : JValue

/-- Annot embeds dt.Annotation (an image-frame annotation): class, data
payload, sub-annotations, annotators, reviewers and slot names. -/
structure Annot where
  annotation_class : AnnotationClass
  data : Dict
  subs : List SubAnnot
  annotators : List AnnotationAuthor
  reviewers : List AnnotationAuthor
  slot_names : List String

/-- VideoAnnot embeds dt.VideoAnnotation. Its frame-aggregation method
`get_data` lives in darwin/datatypes.py, which is not part of the exporter
source; `framesData` is the (possibly raising) result of that external call,
kept opaque. Modelled from the spec: the merged frame-keyed content's exact
shape is owned by the AnnotationFile collaborator. -/
structure VideoAnnot where
  annotation_class : AnnotationClass
  slot_names : List String
  annotators : List AnnotationAuthor
  reviewers : List AnnotationAuthor
  framesData : Except PyErr Dict

/-- AnnotUnion is the runtime distinction `isinstance(x, dt.VideoAnnotation)`
made by the dispatcher. -/
inductive AnnotUnion where
  | image : Annot → AnnotUnion
  | video : VideoAnnot → AnnotUnion

/-- AnnotationFile embeds dt.AnnotationFile restricted to the attributes the
exporter reads. -/
structure AnnotationFile where
  seq : JValue
  filename : String
  image_width : JValue
  image_height : JValue
  image_url : JValue
  image_thumbnail_url : JValue
  remote_path : JValue
  workview_url : JValue
  is_video : Bool
  frame_urls : Option (List JValue)
  annotations : List AnnotUnion

/-- buildAuthor embeds `_build_author`. -/
def buildAuthor (author : AnnotationAuthor) : Dict :=
  [("full_name", JValue.str author.name), ("email", JValue.str author.email)]

/-- buildSubAnnot embeds `_build_sub_annotation`; for a kind that is none of
`instance_id`, `attributes`, `text` the Python function falls through and
returns `None`, embedded as `none`. -/
def buildSubAnnot (sub : SubAnnot) : Option Dict :=
  if sub.annotation_type = "instance_id" then
    some [(sub.annotation_type, JValue.obj [("value", sub.data)])]
  else if sub.annotation_type = "attributes" then
    some [(sub.annotation_type, sub.data)]
  else if sub.annotation_type = "text" then
    some [(sub.annotation_type, JValue.obj [("text", sub.data)])]
  else
    none

/-- buildAuthorship embeds `_build_authorship`; the Python function reads the
`annotators` and `reviewers` attributes of its argument, and an empty list is
falsy. -/
def buildAuthorship (annotators reviewers : List AnnotationAuthor) : Dict :=
  dictMerge
    (if annotators.isEmpty then []
     else [("annotators", JValue.arr (annotators.map fun a => JValue.obj (buildAuthor a)))])
    (if reviewers.isEmpty then []
     else [("annotators", JValue.arr (reviewers.map fun r => JValue.obj (buildAuthor r)))])

/-- legacyMutatedData is the in-place rewrite `_build_legacy_annotation_data`
performs on `data` in its complex-polygon branch, given that `data["paths"]`
is the list `p :: ps`: set `path` to the first path, set `additional_paths`
to the remaining paths, delete `paths`. -/
def legacyMutatedData (data : Dict) (p : JValue) (ps : List JValue) : Dict :=
  dictDel (dictSet (dictSet data "path" p) "additional_paths" (JValue.arr ps)) "paths"

/-- buildLegacyAnnotationData embeds `_build_legacy_annotation_data`. The
Python function mutates `data` in place; the embedding returns the payload
dict together with the final contents of `data`. A missing `paths` key raises
KeyError, `[0]` on an empty list raises IndexError, and subscripting a
non-sequence raises TypeError. -/
def buildLegacyAnnotationData (annotation_class : AnnotationClass) (data : Dict) :
    Except PyErr (Dict × Dict) :=
  if annotation_class.annotation_type = "complex_polygon" then
    match assocLookup data "paths" with
    | none => Except.error PyErr.keyError
    | some (JValue.arr []) => Except.error PyErr.indexError
    | some (JValue.arr (p :: ps)) =>
        Except.ok
          ([(orElseStr annotation_class.annotation_internal_type "polygon",
             JValue.obj (legacyMutatedData data p ps))],
           legacyMutatedData data p ps)
    | some _ => Except.error PyErr.typeError
  else
    Except.ok ([(annotation_class.annotation_type, JValue.obj data)], data)

/-- foldSubs is the `json_subs` accumulation loop of `_build_image_annotation`:
`json_subs.update(_build_sub_annotation(sub))` for each sub-annotation. When
`_build_sub_annotation` returns `None` (unknown kind), `dict.update(None)`
raises TypeError. -/
def foldSubs : List SubAnnot → Dict → Except PyErr Dict
  | [], acc => Except.ok acc
  | s :: rest, acc =>
      match buildSubAnnot s with
      | none => Except.error PyErr.typeError
      | some frag => foldSubs rest (dictMerge acc frag)

/-- buildImageAnnot embeds `_build_image_annotation`: merge the sub-annotation
fragments, the authorship block, the legacy-shaped type payload and the class
name; add `slot_names` unless `skip_slots` is set. -/
def buildImageAnnot (a : Annot) (skip_slots : Bool) : Except PyErr Dict := do
  let json_subs ← foldSubs a.subs []
  let legacy ← buildLegacyAnnotationData a.annotation_class a.data
  let base :=
    dictSet
      (dictMerge (dictMerge json_subs (buildAuthorship a.annotators a.reviewers)) legacy.1)
      "name" (JValue.str a.annotation_class.name)
  if skip_slots then
    Except.ok base
  else
    Except.ok (dictSet base "slot_names" (JValue.arr (a.slot_names.map JValue.str)))

/-- buildVideoAnnot embeds `_build_video_annotation`: the external get_data
result merged with the class name, the slot names and the authorship block. -/
def buildVideoAnnot (v : VideoAnnot) : Except PyErr Dict := do
  let frames ← v.framesData
  Except.ok
    (dictMerge
      (dictSet (dictSet frames "name" (JValue.str v.annotation_class.name))
        "slot_names" (JValue.arr (v.slot_names.map JValue.str)))
      (buildAuthorship v.annotators v.reviewers))

/-- buildAnnot embeds `_build_annotation`: dispatch on
`isinstance(annotation, dt.VideoAnnotation)`. -/
def buildAnnot : AnnotUnion → Except PyErr Dict
  | AnnotUnion.video v => buildVideoAnnot v
  | AnnotUnion.image a => buildImageAnnot a false

/-- imageBlock is the `image` metadata dict of `_build_image_json`. -/
def imageBlock (af : AnnotationFile) : Dict :=
  [("seq", af.seq),
   ("width", af.image_width),
   ("height", af.image_height),
   ("filename", JValue.str af.filename),
   ("original_filename", JValue.str af.filename),
   ("url", af.image_url),
   ("thumbnail_url", af.image_thumbnail_url),
   ("path", af.remote_path),
   ("workview_url", af.workview_url)]

/-- buildImageJson embeds `_build_image_json`. -/
def buildImageJson (af : AnnotationFile) : Except PyErr Dict := do
  let anns ← mapMExcept buildAnnot af.annotations
  Except.ok
    [("image", JValue.obj (imageBlock af)),
     ("annotations", JValue.arr (anns.map JValue.obj))]

/-- rawFrameUrls is the value emitted for the `frame_urls` field: the raw
attribute, `None` (JSON null) when absent. -/
def rawFrameUrls (af : AnnotationFile) : JValue :=
  match af.frame_urls with
  | none => JValue.null
  | some l => JValue.arr l

/-- videoImageBlock is the `image` metadata dict of `_build_video_json`;
`frame_count` is `len(annotation_file.frame_urls or [])`. -/
def videoImageBlock (af : AnnotationFile) : Dict :=
  [("seq", af.seq),
   ("frame_urls", rawFrameUrls af),
   ("frame_count", JValue.num (Int.ofNat (af.frame_urls.getD []).length)),
   ("width", af.image_width),
   ("height", af.image_height),
   ("filename", JValue.str af.filename),
   ("original_filename", JValue.str af.filename),
   ("thumbnail_url", af.image_thumbnail_url),
   ("url", af.image_url),
   ("path", af.remote_path),
   ("workview_url", af.workview_url)]

/-- buildVideoJson embeds `_build_video_json`. -/
def buildVideoJson (af : AnnotationFile) : Except PyErr Dict := do
  let anns ← mapMExcept buildAnnot af.annotations
  Except.ok
    [("image", JValue.obj (videoImageBlock af)),
     ("annotations", JValue.arr (anns.map JValue.obj))]

/-- buildJson embeds `_build_json`: route on the `is_video` flag. -/
def buildJson (af : AnnotationFile) : Except PyErr Dict :=
  if af.is_video then buildVideoJson af else buildImageJson af

/-- dictFilterOutKey models
`dict(filter(lambda item: item[0] != k, d.items()))`. -/
def dictFilterOutKey : Dict → String → Dict
  | [], _ => []
  | (k₁, v₁) :: rest, k =>
      if k₁ = k then dictFilterOutKey rest k else (k₁, v₁) :: dictFilterOutKey rest k

/-- buildAnnotationDataPriv embeds `_build_annotation_data`. The Python
function builds fresh dicts and never mutates `annotation.data`; the second
component returns the final contents of that dict, which is always the
original. -/
def buildAnnotationDataPriv (a : Annot) : Except PyErr (Dict × Dict) :=
  if a.annotation_class.annotation_type = "complex_polygon" then
    match assocLookup a.data "paths" with
    | none => Except.error PyErr.keyError
    | some v => Except.ok ([("path", v)], a.data)
  else if a.annotation_class.annotation_type = "polygon" then
    Except.ok (dictFilterOutKey a.data "bounding_box", a.data)
  else
    Except.ok (a.data, a.data)

/-- buildAnnotationData embeds the deprecated `build_annotation_data`; its
body is letter for letter the body of `_build_annotation_data`, and the
`@deprecation.deprecated` decorator that wraps it only emits a warning. -/
def buildAnnotationData (a : Annot) : Except PyErr (Dict × Dict) :=
  if a.annotation_class.annotation_type = "complex_polygon" then
    match assocLookup a.data "paths" with
    | none => Except.error PyErr.keyError
    | some v => Except.ok ([("path", v)], a.data)
  else if a.annotation_class.annotation_type = "polygon" then
    Except.ok (dictFilterOutKey a.data "bounding_box", a.data)
  else
    Except.ok (a.data, a.data)

/-- legacyPayload is the body of the per-annotation loop of the
backward-compatibility builder `build_image_annotation`: the type-keyed
payload from `_build_annotation_data`, the class name, and, for polygon or
complex-polygon annotations whose data has a `bounding_box` key, that value
under a top-level `bounding_box` key. -/
def legacyPayload (a : Annot) : Except PyErr Dict := do
  let pr ← buildAnnotationDataPriv a
  let base :=
    dictSet (dictSet [] a.annotation_class.annotation_type (JValue.obj pr.1))
      "name" (JValue.str a.annotation_class.name)
  if a.annotation_class.annotation_type = "complex_polygon"
      ∨ a.annotation_class.annotation_type = "polygon" then
    match assocLookup a.data "bounding_box" with
    | some bb => Except.ok (dictSet base "bounding_box" bb)
    | none => Except.ok base
  else
    Except.ok base

/-- legacyPayloadAny extends the loop body to a video annotation. Modelled
from the spec: dt.VideoAnnotation (darwin/datatypes.py, outside the exporter
source) carries no `data` payload attribute (its content is frame-keyed), so
`_build_annotation_data` fails on the attribute access. -/
def legacyPayloadAny : AnnotUnion → Except PyErr Dict
  | AnnotUnion.image a => legacyPayload a
  | AnnotUnion.video _ => Except.error PyErr.attributeError

/-- buildImageAnnotationLegacy embeds the public, backward-compatibility
builder `build_image_annotation`: the per-annotation payloads plus a
four-field `image` block. -/
def buildImageAnnotationLegacy (af : AnnotationFile) : Except PyErr Dict := do
  let anns ← mapMExcept legacyPayloadAny af.annotations
  Except.ok
    [("annotations", JValue.arr (anns.map JValue.obj)),
     ("image", JValue.obj
       [("filename", JValue.str af.filename),
        ("height", af.image_height),
        ("width", af.image_width),
        ("url", af.image_url)])]

/-- Binding a successful Except computation applies the continuation. -/
theorem except_bind_ok {α β : Type} (a : α) (f : α → Except PyErr β) :
    (Except.ok a >>= f) = f a := rfl

/-- Binding a failed Except computation propagates the error. -/
theorem except_bind_error {α β : Type} (e : PyErr) (f : α → Except PyErr β) :
    ((Except.error e : Except PyErr α) >>= f) = Except.error e := rfl

/-- Looking up the key just written by dictSet yields the written value. -/
theorem assocLookup_dictSet_self (d : Dict) (k : String) (v : JValue) :
    assocLookup (dictSet d k v) k = some v := by
  induction d with
  | nil => simp [dictSet, assocLookup]
  | cons kv rest ih =>
      obtain ⟨k₁, v₁⟩ := kv
      by_cases h : k₁ = k
      · simp [dictSet, assocLookup, h]
      · simp [dictSet, assocLookup, h, ih]

/-- Looking up a different key than the one written by dictSet is unchanged. -/
theorem assocLookup_dictSet_ne (d : Dict) (k k₂ : String) (v : JValue) (h : k₂ ≠ k) :
    assocLookup (dictSet d k v) k₂ = assocLookup d k₂ := by
  induction d with
  | nil => simp [dictSet, assocLookup, Ne.symm h]
  | cons kv rest ih =>
      obtain ⟨k₁, v₁⟩ := kv
      by_cases h₁ : k₁ = k
      · subst h₁
        simp [dictSet, assocLookup, Ne.symm h]
      · simp [dictSet, assocLookup, h₁, ih]

/-- Looking up the key removed by dictDel yields nothing. -/
theorem assocLookup_dictDel_self (d : Dict) (k : String) :
    assocLookup (dictDel d k) k = none := by
  induction d with
  | nil => simp [dictDel, assocLookup]
  | cons kv rest ih =>
      obtain ⟨k₁, v₁⟩ := kv
      by_cases h : k₁ = k
      · simp [dictDel, h, ih]
      · simp [dictDel, assocLookup, h, ih]

/-- Looking up a key other than the one removed by dictDel is unchanged. -/
theorem assocLookup_dictDel_ne (d : Dict) (k k₂ : String) (h : k₂ ≠ k) :
    assocLookup (dictDel d k) k₂ = assocLookup d k₂ := by
  induction d with
  | nil => simp [dictDel]
  | cons kv rest ih =>
      obtain ⟨k₁, v₁⟩ := kv
      by_cases h₁ : k₁ = k
      · subst h₁
        simp [dictDel, assocLookup, Ne.symm h, ih]
      · simp [dictDel, assocLookup, h₁, ih]

/-- On a complex-polygon class whose data holds a non-empty paths list, the
legacy adapter returns the rewritten dict both as the payload value and as
the final contents of the caller's mapping. -/
theorem buildLegacy_complex_eq (ac : AnnotationClass) (data : Dict) (p : JValue)
    (ps : List JValue) (hty : ac.annotation_type = "complex_polygon")
    (hpaths : assocLookup data "paths" = some (JValue.arr (p :: ps))) :
    buildLegacyAnnotationData ac data =
      Except.ok
        ([(orElseStr ac.annotation_internal_type "polygon",
           JValue.obj (legacyMutatedData data p ps))],
         legacyMutatedData data p ps) := by
  unfold buildLegacyAnnotationData
  rw [if_pos hty, hpaths]

/-- On any class other than complex_polygon the legacy adapter returns the
data unchanged under the class's own type key. -/
theorem buildLegacy_other_eq (ac : AnnotationClass) (data : Dict)
    (hty : ac.annotation_type ≠ "complex_polygon") :
    buildLegacyAnnotationData ac data =
      Except.ok ([(ac.annotation_type, JValue.obj data)], data) := by
  unfold buildLegacyAnnotationData
  rw [if_neg hty]

/-- The rewritten complex-polygon dict holds the first path under `path`, the
remaining paths under `additional_paths`, and no `paths` key. -/
theorem legacyMutatedData_lookups (data : Dict) (p : JValue) (ps : List JValue) :
    assocLookup (legacyMutatedData data p ps) "path" = some p
    ∧ assocLookup (legacyMutatedData data p ps) "additional_paths" = some (JValue.arr ps)
    ∧ assocLookup (legacyMutatedData data p ps) "paths" = none := by
  unfold legacyMutatedData
  refine ⟨?_, ?_, ?_⟩
  · rw [assocLookup_dictDel_ne _ _ _ (by decide)]
    rw [assocLookup_dictSet_ne _ _ _ _ (by decide)]
    exact assocLookup_dictSet_self data "path" p
  · rw [assocLookup_dictDel_ne _ _ _ (by decide)]
    exact assocLookup_dictSet_self _ "additional_paths" (JValue.arr ps)
  · exact assocLookup_dictDel_self _ "paths"

/-- c2Ann is a polygon annotation carrying one sub-annotation of the unknown
kind `directional_vector`. -/
def c2Ann : Annot :=
  ⟨⟨"star", "polygon", none⟩, [], [⟨"directional_vector", JValue.obj []⟩], [], [], []⟩

/-- C2: the claim says an unknown sub-annotation kind is silently skipped and
`_build_image_annotation` succeeds. On the code it does not: for a kind that
is none of instance_id, attributes, text, `_build_sub_annotation` returns
None and `json_subs.update(None)` raises TypeError, so building the payload
fails. This evaluates the embedding at such an annotation. -/
theorem C2_unknown_sub_kind_raises :
    buildImageAnnot c2Ann false = Except.error PyErr.typeError := rfl

/-- C3: the deprecated low-level builder `build_annotation_data` returns
exactly the same result as its non-deprecated counterpart
`_build_annotation_data` on every annotation; the deprecation decorator only
emits a warning and does not alter the output. -/
theorem C3_deprecated_equals_private :
    ∀ a : Annot, buildAnnotationData a = buildAnnotationDataPriv a :=
  fun _ => rfl

/-- C4: the authorship block has at most the single key `annotators`: the
reviewer list mapped through `_build_author` when non-empty, else the
annotator list mapped likewise when non-empty, else the empty dict; a
non-empty reviewer list silently wins over the annotator list. -/
theorem C4_authorship_block (annotators reviewers : List AnnotationAuthor) :
    buildAuthorship annotators reviewers =
      if reviewers = [] then
        if annotators = [] then ([] : Dict)
        else [("annotators", JValue.arr (annotators.map fun a => JValue.obj (buildAuthor a)))]
      else [("annotators", JValue.arr (reviewers.map fun r => JValue.obj (buildAuthor r)))] := by
  cases annotators <;> cases reviewers <;> rfl

/-- C10: on a complex_polygon annotation `_build_annotation_data` returns the
whole `paths` list unsplit under the single key `path`, with no
`additional_paths` key and the input data left unchanged (second component);
on a polygon annotation it returns a fresh copy of the data with the
`bounding_box` key filtered out, again leaving the input unchanged. -/
theorem C10_private_builder_shape (a : Annot) :
    (∀ v, a.annotation_class.annotation_type = "complex_polygon" →
      assocLookup a.data "paths" = some v →
      buildAnnotationDataPriv a = Except.ok ([("path", v)], a.data)
      ∧ assocLookup [("path", v)] "additional_paths" = none)
    ∧ (a.annotation_class.annotation_type = "polygon" →
      buildAnnotationDataPriv a =
        Except.ok (dictFilterOutKey a.data "bounding_box", a.data)) := by
  constructor
  · intro v hty hpaths
    constructor
    · unfold buildAnnotationDataPriv
      rw [if_pos hty, hpaths]
    · rfl
  · intro hty
    unfold buildAnnotationDataPriv
    rw [hty]
    rfl

/-- c10Complex is a complex_polygon annotation whose data holds a two-path
`paths` list. -/
def c10Complex : Annot :=
  ⟨⟨"cp", "complex_polygon", none⟩,
   [("paths", JValue.arr [JValue.arr [JValue.num 1], JValue.arr [JValue.num 2]])],
   [], [], [], []⟩

/-- c10Polygon is a polygon annotation whose data holds a bounding box next
to its points. -/
def c10Polygon : Annot :=
  ⟨⟨"poly", "polygon", none⟩,
   [("points", JValue.arr []), ("bounding_box", JValue.obj [])],
   [], [], [], []⟩

/-- C10 witness: instantiates the private-builder theorem on a concrete
complex polygon and a concrete polygon. -/
theorem C10_private_builder_shape_witness :
    (buildAnnotationDataPriv c10Complex =
      Except.ok
        ([("path", JValue.arr [JValue.arr [JValue.num 1], JValue.arr [JValue.num 2]])],
         c10Complex.data)
     ∧ assocLookup
         [("path", JValue.arr [JValue.arr [JValue.num 1], JValue.arr [JValue.num 2]])]
         "additional_paths" = none)
    ∧ buildAnnotationDataPriv c10Polygon =
        Except.ok ([("points", JValue.arr [])], c10Polygon.data) :=
  ⟨(C10_private_builder_shape c10Complex).1
      (JValue.arr [JValue.arr [JValue.num 1], JValue.arr [JValue.num 2]]) rfl rfl,
   (C10_private_builder_shape c10Polygon).2 rfl⟩

/-- C5: on a complex_polygon class whose data holds a (non-empty, per the
data-model invariant) `paths` list, the Legacy Shape Adapter emits the
payload under the internal-type override or `polygon`, with `path` the first
element, `additional_paths` the remaining elements and no `paths` key; on
every other class it emits the data unchanged under the class's own
annotation type. -/
theorem C5_legacy_shape (ac : AnnotationClass) (data : Dict) (p : JValue) (ps : List JValue) :
    (ac.annotation_type = "complex_polygon" →
      assocLookup data "paths" = some (JValue.arr (p :: ps)) →
      buildLegacyAnnotationData ac data =
        Except.ok
          ([(orElseStr ac.annotation_internal_type "polygon",
             JValue.obj (legacyMutatedData data p ps))],
           legacyMutatedData data p ps)
      ∧ assocLookup (legacyMutatedData data p ps) "path" = some p
      ∧ assocLookup (legacyMutatedData data p ps) "additional_paths" = some (JValue.arr ps)
      ∧ assocLookup (legacyMutatedData data p ps) "paths" = none)
    ∧ (ac.annotation_type ≠ "complex_polygon" →
      buildLegacyAnnotationData ac data =
        Except.ok ([(ac.annotation_type, JValue.obj data)], data)) := by
  constructor
  · intro hty hpaths
    refine ⟨buildLegacy_complex_eq ac data p ps hty hpaths, ?_, ?_, ?_⟩
    · exact (legacyMutatedData_lookups data p ps).1
    · exact (legacyMutatedData_lookups data p ps).2.1
    · exact (legacyMutatedData_lookups data p ps).2.2
  · exact buildLegacy_other_eq ac data

/-- c5Class is a complex_polygon class with no internal-type override. -/
def c5Class : AnnotationClass := ⟨"cp", "complex_polygon", none⟩

/-- c5Data holds a two-element paths list. -/
def c5Data : Dict :=
  [("paths", JValue.arr [JValue.arr [JValue.num 1, JValue.num 2],
                         JValue.arr [JValue.num 3, JValue.num 4]])]

/-- c5Other is a bounding-box class, exercising the unchanged branch. -/
def c5Other : AnnotationClass := ⟨"box", "bounding_box", none⟩

/-- C5 witness: instantiates the legacy-shape theorem on a concrete complex
polygon (payload key `polygon`, data split and `paths` removed) and on a
concrete bounding-box class (data unchanged). -/
theorem C5_legacy_shape_witness :
    (buildLegacyAnnotationData c5Class c5Data =
      Except.ok
        ([("polygon",
           JValue.obj (legacyMutatedData c5Data (JValue.arr [JValue.num 1, JValue.num 2])
             [JValue.arr [JValue.num 3, JValue.num 4]]))],
         legacyMutatedData c5Data (JValue.arr [JValue.num 1, JValue.num 2])
           [JValue.arr [JValue.num 3, JValue.num 4]])
     ∧ assocLookup (legacyMutatedData c5Data (JValue.arr [JValue.num 1, JValue.num 2])
         [JValue.arr [JValue.num 3, JValue.num 4]]) "path" =
           some (JValue.arr [JValue.num 1, JValue.num 2])
     ∧ assocLookup (legacyMutatedData c5Data (JValue.arr [JValue.num 1, JValue.num 2])
         [JValue.arr [JValue.num 3, JValue.num 4]]) "additional_paths" =
           some (JValue.arr [JValue.arr [JValue.num 3, JValue.num 4]])
     ∧ assocLookup (legacyMutatedData c5Data (JValue.arr [JValue.num 1, JValue.num 2])
         [JValue.arr [JValue.num 3, JValue.num 4]]) "paths" = none)
    ∧ buildLegacyAnnotationData c5Other c5Data =
        Except.ok ([("bounding_box", JValue.obj c5Data)], c5Data) :=
  ⟨(C5_legacy_shape c5Class c5Data (JValue.arr [JValue.num 1, JValue.num 2])
      [JValue.arr [JValue.num 3, JValue.num 4]]).1 rfl rfl,
   (C5_legacy_shape c5Other c5Data (JValue.null) []).2 (by decide)⟩

/-- c1Class is a complex_polygon class with no internal-type override. -/
def c1Class : AnnotationClass := ⟨"poly", "complex_polygon", none⟩

/-- c1Data is a caller-owned data mapping holding only a `paths` list. -/
def c1Data : Dict := [("paths", JValue.arr [JValue.arr [], JValue.arr []])]

/-- C1 counterexample: the claim says the adapter leaves the caller's data
mapping unchanged, still containing `paths` and gaining no `path` or
`additional_paths`. On the concrete complex-polygon input `c1Data` the
adapter's final contents of the mapping lack `paths`, hold `path` and
`additional_paths`, and differ from the original mapping. -/
theorem C1_counterexample :
    buildLegacyAnnotationData c1Class c1Data =
      Except.ok
        ([("polygon",
           JValue.obj [("path", JValue.arr []), ("additional_paths", JValue.arr [JValue.arr []])])],
         [("path", JValue.arr []), ("additional_paths", JValue.arr [JValue.arr []])])
    ∧ assocLookup c1Data "paths" = some (JValue.arr [JValue.arr [], JValue.arr []])
    ∧ assocLookup
        [("path", JValue.arr []), ("additional_paths", JValue.arr [JValue.arr []])] "paths" = none
    ∧ ([("path", JValue.arr []), ("additional_paths", JValue.arr [JValue.arr []])] : Dict)
        ≠ c1Data := by
  refine ⟨rfl, rfl, rfl, ?_⟩
  intro h
  exact absurd (congrArg List.length h) (by decide)

/-- C1 amended: the Legacy Shape Adapter mutates the caller-owned data
mapping in place for complex_polygon classes — after the call the mapping no
longer holds `paths` and holds `path` and `additional_paths` — while for
every other class the mapping is left unchanged. -/
theorem C1_amended_mutation (ac : AnnotationClass) (data : Dict) (p : JValue) (ps : List JValue) :
    (ac.annotation_type = "complex_polygon" →
      assocLookup data "paths" = some (JValue.arr (p :: ps)) →
      ∀ payload dataAfter,
        buildLegacyAnnotationData ac data = Except.ok (payload, dataAfter) →
        assocLookup dataAfter "paths" = none
        ∧ assocLookup dataAfter "path" = some p
        ∧ assocLookup dataAfter "additional_paths" = some (JValue.arr ps))
    ∧ (ac.annotation_type ≠ "complex_polygon" →
      ∀ payload dataAfter,
        buildLegacyAnnotationData ac data = Except.ok (payload, dataAfter) →
        dataAfter = data) := by
  constructor
  · intro hty hpaths payload dataAfter hok
    rw [buildLegacy_complex_eq ac data p ps hty hpaths] at hok
    have hpair := Except.ok.inj hok
    have hafter : dataAfter = legacyMutatedData data p ps := (congrArg Prod.snd hpair).symm
    subst hafter
    exact ⟨(legacyMutatedData_lookups data p ps).2.2,
           (legacyMutatedData_lookups data p ps).1,
           (legacyMutatedData_lookups data p ps).2.1⟩
  · intro hty payload dataAfter hok
    rw [buildLegacy_other_eq ac data hty] at hok
    exact (congrArg Prod.snd (Except.ok.inj hok)).symm

/-- C1 amended witness: instantiates the mutation theorem on the concrete
complex-polygon input of the counterexample and on a concrete keypoint
class. -/
theorem C1_amended_mutation_witness :
    (assocLookup [("path", JValue.arr []), ("additional_paths", JValue.arr [JValue.arr []])]
        "paths" = none
     ∧ assocLookup [("path", JValue.arr []), ("additional_paths", JValue.arr [JValue.arr []])]
         "path" = some (JValue.arr [])
     ∧ assocLookup [("path", JValue.arr []), ("additional_paths", JValue.arr [JValue.arr []])]
         "additional_paths" = some (JValue.arr [JValue.arr []]))
    ∧ ([("x", JValue.num 3)] : Dict) = [("x", JValue.num 3)] :=
  ⟨(C1_amended_mutation c1Class c1Data (JValue.arr []) [JValue.arr []]).1 rfl rfl
      [("polygon",
        JValue.obj [("path", JValue.arr []), ("additional_paths", JValue.arr [JValue.arr []])])]
      [("path", JValue.arr []), ("additional_paths", JValue.arr [JValue.arr []])] rfl,
   (C1_amended_mutation ⟨"kp", "keypoint", none⟩ [("x", JValue.num 3)] JValue.null []).2
      (by decide) [("keypoint", JValue.obj [("x", JValue.num 3)])] [("x", JValue.num 3)] rfl⟩

/-- When every sub-annotation of the list has a known kind, the json_subs
accumulation loop completes without raising. -/
theorem foldSubs_ok_of_known (subs : List SubAnnot) (acc : Dict)
    (h : ∀ s ∈ subs, (buildSubAnnot s).isSome = true) :
    ∃ d, foldSubs subs acc = Except.ok d := by
  induction subs generalizing acc with
  | nil => exact ⟨acc, rfl⟩
  | cons s rest ih =>
      have hs := h s (by simp)
      cases hbs : buildSubAnnot s with
      | none => rw [hbs] at hs; simp at hs
      | some frag =>
          obtain ⟨d, hd⟩ := ih (dictMerge acc frag) (fun x hx => h x (by simp [hx]))
          exact ⟨d, by simp [foldSubs, hbs, hd]⟩

/-- C6: on a complex_polygon annotation whose data lacks the `paths` key
(and whose sub-annotations are all of known kinds, so the earlier loop does
not raise first), building the payload fails with KeyError, and the error
propagates uncaught through `_build_json` for a file containing such an
annotation. -/
theorem C6_missing_paths_keyerror (a : Annot) (af : AnnotationFile) (skip : Bool)
    (hty : a.annotation_class.annotation_type = "complex_polygon")
    (hmiss : assocLookup a.data "paths" = none)
    (hsubs : ∀ s ∈ a.subs, (buildSubAnnot s).isSome = true)
    (hanns : af.annotations = [AnnotUnion.image a])
    (hvid : af.is_video = false) :
    buildImageAnnot a skip = Except.error PyErr.keyError
    ∧ buildJson af = Except.error PyErr.keyError := by
  have hlegacy : buildLegacyAnnotationData a.annotation_class a.data =
      Except.error PyErr.keyError := by
    unfold buildLegacyAnnotationData
    rw [if_pos hty, hmiss]
  obtain ⟨d, hd⟩ := foldSubs_ok_of_known a.subs [] hsubs
  have himg : ∀ sk : Bool, buildImageAnnot a sk = Except.error PyErr.keyError := by
    intro sk
    unfold buildImageAnnot
    rw [hd, except_bind_ok, hlegacy, except_bind_error]
  refine ⟨himg skip, ?_⟩
  have hfile : buildImageJson af = Except.error PyErr.keyError := by
    unfold buildImageJson
    rw [hanns]
    simp only [mapMExcept, buildAnnot, himg false]
    rfl
  simp [buildJson, hvid, hfile]

/-- c6Ann is a complex_polygon annotation whose data lacks `paths`. -/
def c6Ann : Annot :=
  ⟨⟨"cp", "complex_polygon", none⟩, [("x", JValue.null)], [], [], [], []⟩

/-- c6File is an image AnnotationFile holding exactly `c6Ann`. -/
def c6File : AnnotationFile :=
  ⟨JValue.num 0, "f.png", JValue.null, JValue.null, JValue.null, JValue.null,
   JValue.null, JValue.null, false, none, [AnnotUnion.image c6Ann]⟩

/-- C6 witness: the KeyError theorem instantiated on a concrete annotation
and file. -/
theorem C6_missing_paths_keyerror_witness :
    buildImageAnnot c6Ann true = Except.error PyErr.keyError
    ∧ buildJson c6File = Except.error PyErr.keyError :=
  C6_missing_paths_keyerror c6Ann c6File true rfl rfl (by simp [c6Ann]) rfl rfl

/-- C7: for every image AnnotationFile whose document builds, the emitted
`image` block holds exactly the nine fields seq, width, height, filename,
original_filename, url, thumbnail_url, path, workview_url, and
original_filename equals filename. -/
theorem C7_image_block_fields (af : AnnotationFile) (doc : Dict)
    (hvid : af.is_video = false)
    (hok : buildJson af = Except.ok doc) :
    assocLookup doc "image" = some (JValue.obj (imageBlock af))
    ∧ (imageBlock af).map Prod.fst =
        ["seq", "width", "height", "filename", "original_filename", "url",
         "thumbnail_url", "path", "workview_url"]
    ∧ assocLookup (imageBlock af) "original_filename" = some (JValue.str af.filename)
    ∧ assocLookup (imageBlock af) "original_filename" =
        assocLookup (imageBlock af) "filename" := by
  simp only [buildJson, hvid, Bool.false_eq_true, if_false] at hok
  cases hm : mapMExcept buildAnnot af.annotations with
  | error e =>
      unfold buildImageJson at hok
      rw [hm, except_bind_error] at hok
      exact Except.noConfusion hok
  | ok anns =>
      unfold buildImageJson at hok
      rw [hm, except_bind_ok] at hok
      have hdoc : doc =
          [("image", JValue.obj (imageBlock af)),
           ("annotations", JValue.arr (anns.map JValue.obj))] :=
        (Except.ok.inj hok).symm
      subst hdoc
      exact ⟨rfl, rfl, rfl, rfl⟩

/-- c7File is a concrete image AnnotationFile with no annotations. -/
def c7File : AnnotationFile :=
  ⟨JValue.num 1, "img.png", JValue.num 1920, JValue.num 1080, JValue.str "u",
   JValue.str "t", JValue.str "/", JValue.str "w", false, none, []⟩

/-- c7Doc is the document `_build_json` emits for `c7File`. -/
def c7Doc : Dict :=
  [("image", JValue.obj (imageBlock c7File)), ("annotations", JValue.arr [])]

/-- C7 witness: the image-block theorem instantiated on `c7File`. -/
theorem C7_image_block_fields_witness :
    assocLookup c7Doc "image" = some (JValue.obj (imageBlock c7File))
    ∧ (imageBlock c7File).map Prod.fst =
        ["seq", "width", "height", "filename", "original_filename", "url",
         "thumbnail_url", "path", "workview_url"]
    ∧ assocLookup (imageBlock c7File) "original_filename" = some (JValue.str "img.png")
    ∧ assocLookup (imageBlock c7File) "original_filename" =
        assocLookup (imageBlock c7File) "filename" :=
  C7_image_block_fields c7File c7Doc rfl rfl

/-- C8: for every video AnnotationFile whose document builds, the emitted
`image` block's frame_count is the length of frame_urls when present and 0
when absent, and frame_urls is emitted as the raw per-frame URL list. -/
theorem C8_video_frame_fields (af : AnnotationFile) (doc : Dict)
    (hvid : af.is_video = true)
    (hok : buildJson af = Except.ok doc) :
    assocLookup doc "image" = some (JValue.obj (videoImageBlock af))
    ∧ assocLookup (videoImageBlock af) "frame_count" =
        some (JValue.num (match af.frame_urls with
                          | some l => Int.ofNat l.length
                          | none => 0))
    ∧ assocLookup (videoImageBlock af) "frame_urls" = some (rawFrameUrls af)
    ∧ (∀ l, af.frame_urls = some l → rawFrameUrls af = JValue.arr l) := by
  simp only [buildJson, hvid, if_true] at hok
  cases hm : mapMExcept buildAnnot af.annotations with
  | error e =>
      unfold buildVideoJson at hok
      rw [hm, except_bind_error] at hok
      exact Except.noConfusion hok
  | ok anns =>
      unfold buildVideoJson at hok
      rw [hm, except_bind_ok] at hok
      have hdoc : doc =
          [("image", JValue.obj (videoImageBlock af)),
           ("annotations", JValue.arr (anns.map JValue.obj))] :=
        (Except.ok.inj hok).symm
      subst hdoc
      refine ⟨rfl, ?_, rfl, ?_⟩
      · cases hfu : af.frame_urls with
        | none => simp only [videoImageBlock, hfu]; rfl
        | some l => simp only [videoImageBlock, hfu]; rfl
      · intro l hl
        unfold rawFrameUrls
        rw [hl]

/-- c8File is a concrete video AnnotationFile with two frame URLs and no
annotations. -/
def c8File : AnnotationFile :=
  ⟨JValue.num 2, "v.mp4", JValue.num 640, JValue.num 480, JValue.str "u",
   JValue.str "t", JValue.str "/", JValue.str "w", true,
   some [JValue.str "u1", JValue.str "u2"], []⟩

/-- c8Doc is the document `_build_json` emits for `c8File`. -/
def c8Doc : Dict :=
  [("image", JValue.obj (videoImageBlock c8File)), ("annotations", JValue.arr [])]

/-- C8 witness: the video-frame theorem instantiated on `c8File`, where the
emitted frame_count is 2, the length of the raw two-element URL list. -/
theorem C8_video_frame_fields_witness :
    assocLookup c8Doc "image" = some (JValue.obj (videoImageBlock c8File))
    ∧ assocLookup (videoImageBlock c8File) "frame_count" = some (JValue.num 2)
    ∧ assocLookup (videoImageBlock c8File) "frame_urls" = some (rawFrameUrls c8File)
    ∧ (∀ l, c8File.frame_urls = some l → rawFrameUrls c8File = JValue.arr l) :=
  C8_video_frame_fields c8File c8Doc rfl rfl

/-- C9: in the backward-compatibility builder, a polygon or complex_polygon
annotation whose data holds a `bounding_box` key yields an entry carrying
that value under a separate top-level `bounding_box` key, and the entry's
keys are exactly the type key, `name` and `bounding_box` — no authorship,
sub-annotation or slot_names data. -/
theorem C9_legacy_bounding_box (a : Annot) (bb : JValue) (p : Dict)
    (hty : a.annotation_class.annotation_type = "polygon"
         ∨ a.annotation_class.annotation_type = "complex_polygon")
    (hbb : assocLookup a.data "bounding_box" = some bb)
    (hok : legacyPayload a = Except.ok p) :
    assocLookup p "bounding_box" = some bb
    ∧ p.map Prod.fst = [a.annotation_class.annotation_type, "name", "bounding_box"]
    ∧ assocLookup p "annotators" = none
    ∧ assocLookup p "slot_names" = none := by
  rcases hty with hty | hty
  · have hpriv : buildAnnotationDataPriv a =
        Except.ok (dictFilterOutKey a.data "bounding_box", a.data) := by
      unfold buildAnnotationDataPriv
      rw [hty]
      rfl
    have hlp : legacyPayload a =
        Except.ok
          (dictSet
            (dictSet (dictSet [] "polygon"
                (JValue.obj (dictFilterOutKey a.data "bounding_box")))
              "name" (JValue.str a.annotation_class.name))
            "bounding_box" bb) := by
      simp only [legacyPayload, hpriv, except_bind_ok, hty]
      simp only [or_true, true_or, if_true]
      rw [hbb]
    rw [hlp] at hok
    have hp := (Except.ok.inj hok).symm
    subst hp
    rw [hty]
    exact ⟨rfl, rfl, rfl, rfl⟩
  · have hpriv : ∃ v, buildAnnotationDataPriv a = Except.ok ([("path", v)], a.data) := by
      unfold buildAnnotationDataPriv
      rw [if_pos hty]
      cases hpp : assocLookup a.data "paths" with
      | none =>
          exfalso
          have hlp : legacyPayload a = Except.error PyErr.keyError := by
            have hpriv₀ : buildAnnotationDataPriv a = Except.error PyErr.keyError := by
              unfold buildAnnotationDataPriv
              rw [if_pos hty, hpp]
            simp only [legacyPayload, hpriv₀, except_bind_error]
          rw [hlp] at hok
          exact Except.noConfusion hok
      | some v => exact ⟨v, rfl⟩
    obtain ⟨v, hpriv⟩ := hpriv
    have hlp : legacyPayload a =
        Except.ok
          (dictSet
            (dictSet (dictSet [] "complex_polygon" (JValue.obj [("path", v)]))
              "name" (JValue.str a.annotation_class.name))
            "bounding_box" bb) := by
      simp only [legacyPayload, hpriv, except_bind_ok, hty]
      simp only [or_true, true_or, if_true]
      rw [hbb]
    rw [hlp] at hok
    have hp := (Except.ok.inj hok).symm
    subst hp
    rw [hty]
    exact ⟨rfl, rfl, rfl, rfl⟩

/-- c9Ann is a polygon annotation whose data holds points and a bounding
box. -/
def c9Ann : Annot :=
  ⟨⟨"car", "polygon", none⟩,
   [("points", JValue.arr []), ("bounding_box", JValue.obj [("x", JValue.num 1)])],
   [], [], [], []⟩

/-- c9Payload is the entry the backward-compatibility loop builds for
`c9Ann`. -/
def c9Payload : Dict :=
  [("polygon", JValue.obj [("points", JValue.arr [])]),
   ("name", JValue.str "car"),
   ("bounding_box", JValue.obj [("x", JValue.num 1)])]

/-- C9 witness: the bounding-box theorem instantiated on `c9Ann`. -/
theorem C9_legacy_bounding_box_witness :
    assocLookup c9Payload "bounding_box" = some (JValue.obj [("x", JValue.num 1)])
    ∧ c9Payload.map Prod.fst = ["polygon", "name", "bounding_box"]
    ∧ assocLookup c9Payload "annotators" = none
    ∧ assocLookup c9Payload "slot_names" = none :=
  C9_legacy_bounding_box c9Ann (JValue.obj [("x", JValue.num 1)]) c9Payload
    (Or.inl rfl) rfl rfl
